import Mathlib

/-!
Verification of the DIDWW Voice-OTP example client
(`examples/generic/python-requests.py`).

The script is embedded shallowly:

* JSON values parsed from HTTP bodies are the inductive `JVal`;
  a Python `dict` is an association list in insertion order.
* The process environment is a function `String → Option String`
  (`os.environ.get`).
* The HTTP transport (`requests.post`) is a function from the request the
  script builds to a response; `send_voice_otp` returns the list of requests
  it issued together with its outcome, so "no network call" and
  "exactly one POST" are provable statements.
* `random.randint(100000, 999999)` is modelled by `randint` applied to a
  draw `seed`; `randint`'s contract makes the result uniform over
  `[100000, 999999]` when the draw is uniform.
* Exceptions become the `SendError` sum; `sys.exit` / `print` become the
  `MainOutcome` record of exit code and printed lines.
-/

/-- A primitive JSON value.  Numbers are modelled as integers (no claim
touches fractional values). -/
inductive JVal where
  | jnull : JVal
  | jbool : Bool → JVal
  | jnum : Int → JVal
  | jstr : String → JVal
deriving Repr, DecidableEq

/-- A parsed JSON document, as produced by `response.json()`: an object (a
Python `dict`, kept as an association list in insertion order), an array, or
a bare primitive.  One nesting level suffices for every body this script
inspects. -/
inductive JDoc where
  | jobj : List (String × JVal) → JDoc
  | jarr : List JVal → JDoc
  | jprim : JVal → JDoc
deriving Repr, DecidableEq

/-- Python `dict.get`: first binding of the key, if any. -/
def jget (o : List (String × JVal)) (k : String) : Option JVal :=
  match o with
  | [] => none
  | (k2, v) :: rest => if k2 = k then some v else jget rest k

/-- Python `str(v)` for a primitive value (as interpolated by an f-string):
strings appear without quotes, `None` / `True` / `False` spelled as Python
spells them, integers in decimal. -/
def pyStrVal : JVal → String
  | .jnull => "None"
  | .jbool true => "True"
  | .jbool false => "False"
  | .jnum n => toString n
  | .jstr s => s

/-- Python `str(d.get(k))` as used in the f-string building the API error: a missing
key yields Python `None`, printed `"None"`. -/
def pyStrOpt : Option JVal → String
  | none => "None"
  | some v => pyStrVal v

/-- Assign `k := v` in a Python dict kept as an association list: an existing
binding is updated in place, a new key is appended. -/
def setKey (o : List (String × JVal)) (k : String) (v : JVal) :
    List (String × JVal) :=
  match o with
  | [] => [(k, v)]
  | (k2, v2) :: rest =>
      if k2 = k then (k, v) :: rest else (k2, v2) :: setKey rest k v

/-- The dict display `\x7b"code": otp_code, **body\x7d` of line 68: start from the
one-entry dict `code ↦ otp_code`, then merge every field of `body` over it
(so a `code` field of the body overrides the one just written). -/
def pyDictMerge (otp_code : String) (body : List (String × JVal)) :
    List (String × JVal) :=
  body.foldl (fun acc kv => setKey acc kv.1 kv.2) [("code", .jstr otp_code)]

/-- Python truthiness of `os.environ.get` results: `None` and `""` are falsy
(the script guards with `if not gateway_url`). -/
def pyTruthyStr : Option String → Bool
  | none => false
  | some s => !s.isEmpty

/-- Model of `random.randint(lo, hi)`: returns an integer in `[lo, hi]`, both ends
included, uniformly; the draw is modelled by reducing an arbitrary `seed`
modulo the size of the range. -/
def randint (lo hi seed : Nat) : Nat :=
  lo + seed % (hi - lo + 1)

/-- Function `generate_otp` (lines 21–23): `str(random.randint(100000, 999999))`. -/
def generate_otp (seed : Nat) : String :=
  Nat.repr (randint 100000 999999 seed)

/-- The single POST request `requests.post` is given (lines 51–60): URL,
JSON body fields, header, timeout in seconds. -/
structure HttpRequest where
  url : String
  phone : String
  code : String
  secret : String
  contentType : String
  timeout : Nat
deriving Repr, DecidableEq

/-- What the script observes of the HTTP response: `response.ok`
(`requests` truthiness of the status) and the outcome of `response.json()`
(`none` models a body that is not valid JSON, where `.json()` raises). -/
structure HttpResponse where
  ok : Bool
  jsonResult : Option JDoc
deriving Repr, DecidableEq

/-- The exceptions `send_voice_otp` can raise: the two `ValueError`s of the
configuration guard, the `requests.HTTPError` built from the failure body,
the `JSONDecodeError` of `response.json()` on a non-JSON body, the
`AttributeError` of `error.get` when the failure body is not an object, and
the `TypeError` of `**response.json()` when the success body is not an
object. -/
inductive SendError where
  | configError : String → SendError
  | apiError : String → SendError
  | jsonDecodeError : SendError
  | attributeError : SendError
  | typeError : SendError
deriving Repr, DecidableEq

/-- The expression `code or generate_otp()` of line 49 under Python
truthiness: an absent (`None`) or empty caller-supplied code falls back to
a freshly generated one; any other string is used exactly as given. -/
def effectiveCode (seed : Nat) (code : Option String) : String :=
  match code with
  | none => generate_otp seed
  | some c => if c.isEmpty then generate_otp seed else c

/-- Function `send_voice_otp` (lines 26–68).  `env` is `os.environ.get`, `transport`
is `requests.post`, `seed` the random draw consumed if a code must be
generated.  Returns the requests actually issued (so claims about "no
network call" and "exactly one POST" are statable) and either the returned
dict or the exception raised. -/
def send_voice_otp (env : String → Option String)
    (transport : HttpRequest → HttpResponse) (seed : Nat)
    (phone : String) (code : Option String) :
    List HttpRequest × Except SendError (List (String × JVal)) :=
  let gateway_url := env "GATEWAY_URL"
  let api_secret := env "API_SECRET"
  if !pyTruthyStr gateway_url then
    ([], .error (.configError "GATEWAY_URL environment variable is required"))
  else if !pyTruthyStr api_secret then
    ([], .error (.configError "API_SECRET environment variable is required"))
  else
    let otp_code := effectiveCode seed code
    let req : HttpRequest :=
      { url := gateway_url.getD "" ++ "/send-otp"
        phone := phone
        code := otp_code
        secret := api_secret.getD ""
        contentType := "application/json"
        timeout := 30 }
    let response := transport req
    if !response.ok then
      match response.jsonResult with
      | none => ([req], .error .jsonDecodeError)
      | some (.jobj error) =>
          ([req], .error (.apiError
            ("API Error: " ++ pyStrOpt (jget error "message") ++ " ("
              ++ pyStrOpt (jget error "error") ++ ")")))
      | some _ => ([req], .error .attributeError)
    else
      match response.jsonResult with
      | none => ([req], .error .jsonDecodeError)
      | some (.jobj body) => ([req], .ok (pyDictMerge otp_code body))
      | some _ => ([req], .error .typeError)

/-- Python `$` anchor: it matches at the very end of the string and also
just before a newline that ends the string (Python `re` semantics for `$`
without `re.MULTILINE`). -/
def pyDollarEnd (r : List Char) : Bool :=
  decide (r = [] ∨ r = ['\n'])

/-- First code points of the runs of ten that form the Unicode category Nd
(decimal digit number), Unicode 15.0 as shipped with current CPython: every
Nd character is `start + d` for one of these starts and a digit value
`d < 10`. -/
def ndRangeStarts : List Nat :=
  [0x30, 0x660, 0x6F0, 0x7C0, 0x966, 0x9E6, 0xA66, 0xAE6, 0xB66, 0xBE6,
   0xC66, 0xCE6, 0xD66, 0xDE6, 0xE50, 0xED0, 0xF20, 0x1040, 0x1090, 0x17E0,
   0x1810, 0x1946, 0x19D0, 0x1A80, 0x1A90, 0x1B50, 0x1BB0, 0x1C40, 0x1C50,
   0xA620, 0xA8D0, 0xA900, 0xA9D0, 0xA9F0, 0xAA50, 0xABF0, 0xFF10,
   0x104A0, 0x10D30, 0x11066, 0x110F0, 0x11136, 0x111D0, 0x112F0, 0x11450,
   0x114D0, 0x11650, 0x116C0, 0x11730, 0x118E0, 0x11950, 0x11C50, 0x11D50,
   0x11DA0, 0x11F50, 0x16A60, 0x16AC0, 0x16B50, 0x1D7CE, 0x1D7D8, 0x1D7E2,
   0x1D7EC, 0x1D7F6, 0x1E140, 0x1E2F0, 0x1E4F0, 0x1E950, 0x1FBF0]

/-- What Python's `\x5cd` matches in a `str` pattern without `re.ASCII`: any
Unicode decimal digit, i.e. any character of category Nd (per the `re`
module documentation), membership read off `ndRangeStarts`. -/
def isPyDigit (c : Char) : Bool :=
  ndRangeStarts.any fun s => decide (s ≤ c.toNat) && decide (c.toNat ≤ s + 9)

/-- The check `re.match(r"\x5e\x5c+[1-9]\x5cd\x7b9,14\x7d$", phone)` of line 82,
translated operationally: a literal `+`, one character in `1`–`9` (a range
of code points, hence ASCII `1`–`9` only), then the greedy `\x5cd\x7b9,14\x7d` —
which succeeds exactly when the maximal digit run that follows has length
between 9 and 14 and is followed by the `$` anchor (taking fewer digits
always leaves a digit under `$`, so greediness loses nothing).  `\x5cd` is
`isPyDigit`, any Unicode decimal digit; `$` follows Python semantics, also
matching before one trailing newline.  `re.match` anchors at the start
only, which `\x5e` makes explicit anyway. -/
def pyPhoneMatch (s : String) : Bool :=
  match s.data with
  | c0 :: c :: rest =>
      decide (c0 = '+') && decide ('1' ≤ c) && decide (c ≤ '9')
        && (decide (9 ≤ (rest.takeWhile isPyDigit).length)
            && decide ((rest.takeWhile isPyDigit).length ≤ 14)
            && pyDollarEnd (rest.dropWhile isPyDigit))
  | _ => false

/-- The phone pattern exactly as the claim words it: a leading `+`, then a
first digit 1–9, then 9 to 14 more digits (read as ASCII digits, as in the
claim's examples), and nothing else.  (Spec-side definition, to be compared
with `pyPhoneMatch`.) -/
def specPhonePat (s : String) : Bool :=
  match s.data with
  | c0 :: c :: rest =>
      decide (c0 = '+') && decide ('1' ≤ c) && decide (c ≤ '9')
        && (rest.all Char.isDigit && decide (9 ≤ rest.length)
            && decide (rest.length ≤ 14))
  | _ => false

/-- The amended phone pattern: a leading `+`, an ASCII digit 1–9, then 9 to
14 Unicode decimal digits, and nothing else — the anchored language of the
script's regex under Python `\x5cd` semantics, before the `$`-newline
allowance. -/
def specPhonePatNd (s : String) : Bool :=
  match s.data with
  | c0 :: c :: rest =>
      decide (c0 = '+') && decide ('1' ≤ c) && decide (c ≤ '9')
        && (rest.all isPyDigit && decide (9 ≤ rest.length)
            && decide (rest.length ≤ 14))
  | _ => false

/-- A line the script prints, abstracted from its exact rendering:
`usage1`/`usage2` are the two usage lines, `formatError` the E.164 message,
`sending phone` the `"Sending OTP to ..."` line, `success result` the
`"Success: ..."` line carrying the returned dict, and `failed e` the
`"Failed: ..."` line carrying the caught exception. -/
inductive OutLine where
  | usage1 : OutLine
  | usage2 : OutLine
  | formatError : OutLine
  | sending : String → OutLine
  | success : List (String × JVal) → OutLine
  | failed : SendError → OutLine
deriving Repr, DecidableEq

/-- Observable outcome of one run of `main`: lines printed in order, process
exit status, and the HTTP requests issued. -/
structure MainOutcome where
  output : List OutLine
  exitCode : Nat
  requests : List HttpRequest
deriving Repr, DecidableEq

/-- Function `main` (lines 71–92).  `args` is `sys.argv[1:]` (the arguments
after the program name): `sys.argv[1]` is the phone, `sys.argv[2]`, when
present, the code override; falling off the end of `main` without
`sys.exit` exits with status 0.  (Lean reserves the top-level name `main`,
hence the suffix.) -/
def main_run (env : String → Option String)
    (transport : HttpRequest → HttpResponse) (seed : Nat)
    (args : List String) : MainOutcome :=
  match args with
  | [] => { output := [.usage1, .usage2], exitCode := 1, requests := [] }
  | phone :: rest =>
      let code := rest.head?
      if !pyPhoneMatch phone then
        { output := [.formatError], exitCode := 1, requests := [] }
      else
        match send_voice_otp env transport seed phone code with
        | (reqs, .ok result) =>
            { output := [.sending phone, .success result]
              exitCode := 0
              requests := reqs }
        | (reqs, .error e) =>
            { output := [.sending phone, .failed e]
              exitCode := 1
              requests := reqs }

/-- A fully populated environment, used to instantiate theorems. -/
def goodEnv : String → Option String := fun k =>
  if k = "GATEWAY_URL" then some "https://gateway.example"
  else if k = "API_SECRET" then some "s3cret" else none

/-- An environment with both variables unset. -/
def emptyEnv : String → Option String := fun _ => none

/-- A transport answering every request with a success status and the given
JSON document. -/
def okTransport (d : JDoc) : HttpRequest → HttpResponse :=
  fun _ => { ok := true, jsonResult := some d }

/-- The simulated success body `{"call_id": "abc123", "status": "queued"}`
of the spec's test scenario. -/
def queuedBody : List (String × JVal) :=
  [("call_id", .jstr "abc123"), ("status", .jstr "queued")]

/-- The simulated failure body
`{"message": "invalid secret", "error": "AUTH_FAILED"}` of the spec's test
scenario. -/
def authFailedBody : List (String × JVal) :=
  [("message", .jstr "invalid secret"), ("error", .jstr "AUTH_FAILED")]

/-- A transport answering every request with a failure status and the given
`response.json()` outcome (`none`: the body is not valid JSON). -/
def failTransport (d : Option JDoc) : HttpRequest → HttpResponse :=
  fun _ => { ok := false, jsonResult := d }

/-- Decimal digit characters of `n`, most significant first; proved equal to
the character list of `Nat.repr` in `repr_data_eq_decChars`. -/
def decChars (n : Nat) : List Char :=
  if n < 10 then [Nat.digitChar n]
  else decChars (n / 10) ++ [Nat.digitChar (n % 10)]
termination_by n
decreasing_by exact Nat.div_lt_self (by omega) (by omega)

/-- Remove one trailing newline, when present.  Python's `$` anchor accepts
it, so the language of the script's phone regex is exactly the phones whose
`stripTrailNl` image matches the anchored pattern. -/
def stripTrailNl (s : String) : String :=
  if s.data.getLast? = some '\n' then String.mk s.data.dropLast else s

/-! ## Supporting lemmas: decimal representation -/

lemma digitChar_isDigit {m : Nat} (h : m < 10) : (Nat.digitChar m).isDigit = true := by
  have h10 : ∀ i : Fin 10, (Nat.digitChar i.val).isDigit = true := by decide
  exact h10 ⟨m, h⟩

lemma digitChar_inj {a b : Nat} (ha : a < 10) (hb : b < 10)
    (h : Nat.digitChar a = Nat.digitChar b) : a = b := by
  have h10 : ∀ i j : Fin 10, Nat.digitChar i.val = Nat.digitChar j.val → i = j := by decide
  have := h10 ⟨a, ha⟩ ⟨b, hb⟩ h
  exact congrArg Fin.val this

lemma decChars_lt (n : Nat) (h : n < 10) : decChars n = [Nat.digitChar n] := by
  rw [decChars, if_pos h]

lemma decChars_ge (n : Nat) (h : ¬ n < 10) :
    decChars n = decChars (n / 10) ++ [Nat.digitChar (n % 10)] := by
  rw [decChars, if_neg h]

lemma toDigitsCore_eq_decChars :
    ∀ (f n : Nat) (acc : List Char), n < f →
      Nat.toDigitsCore 10 f n acc = decChars n ++ acc := by
  intro f
  induction f with
  | zero => intro n acc h; omega
  | succ f ih =>
    intro n acc h
    by_cases h10 : n < 10
    · have hdiv : n / 10 = 0 := Nat.div_eq_of_lt h10
      have hmod : n % 10 = n := Nat.mod_eq_of_lt h10
      simp [Nat.toDigitsCore, hdiv, hmod, decChars_lt n h10]
    · have hdiv : ¬ n / 10 = 0 := by omega
      have hlt : n / 10 < f := by
        have h1 : n / 10 < n := Nat.div_lt_self (by omega) (by omega)
        omega
      simp only [Nat.toDigitsCore, hdiv, if_false]
      rw [ih (n / 10) _ hlt, decChars_ge n h10, List.append_assoc]
      rfl

lemma repr_data_eq_decChars (n : Nat) : (Nat.repr n).data = decChars n := by
  show (Nat.toDigits 10 n).asString.data = decChars n
  rw [Nat.toDigits, toDigitsCore_eq_decChars (n + 1) n [] (Nat.lt_succ_self n),
    List.append_nil]
  rfl

lemma repr_length_eq (n : Nat) : (Nat.repr n).length = (decChars n).length := by
  show (Nat.repr n).data.length = _
  rw [repr_data_eq_decChars]

lemma decChars_length_six (n : Nat) (h1 : 100000 ≤ n) (h2 : n ≤ 999999) :
    (decChars n).length = 6 := by
  have e5 : n / 10000 / 10 = n / 100000 := by omega
  have e4 : n / 1000 / 10 = n / 10000 := by omega
  have e3 : n / 100 / 10 = n / 1000 := by omega
  have e2 : n / 10 / 10 = n / 100 := by omega
  have l1 : (decChars (n / 100000)).length = 1 := by
    rw [decChars_lt _ (by omega)]; rfl
  have l2 : (decChars (n / 10000)).length = 2 := by
    rw [decChars_ge _ (by omega), List.length_append, e5, l1]; rfl
  have l3 : (decChars (n / 1000)).length = 3 := by
    rw [decChars_ge _ (by omega), List.length_append, e4, l2]; rfl
  have l4 : (decChars (n / 100)).length = 4 := by
    rw [decChars_ge _ (by omega), List.length_append, e3, l3]; rfl
  have l5 : (decChars (n / 10)).length = 5 := by
    rw [decChars_ge _ (by omega), List.length_append, e2, l4]; rfl
  rw [decChars_ge _ (by omega), List.length_append, l5]; rfl

lemma decChars_all_isDigit : ∀ n : Nat, ∀ c ∈ decChars n, c.isDigit = true := by
  intro n
  induction n using Nat.strong_induction_on with
  | _ n ih =>
    intro c hc
    by_cases h10 : n < 10
    · rw [decChars_lt n h10, List.mem_singleton] at hc
      exact hc ▸ digitChar_isDigit h10
    · rw [decChars_ge n h10, List.mem_append, List.mem_singleton] at hc
      rcases hc with hc | hc
      · exact ih (n / 10) (Nat.div_lt_self (by omega) (by omega)) c hc
      · exact hc ▸ digitChar_isDigit (Nat.mod_lt n (by omega))

lemma append_singleton_inj {l1 l2 : List Char} {x y : Char}
    (h : l1 ++ [x] = l2 ++ [y]) : l1 = l2 ∧ x = y := by
  have hrev := congrArg List.reverse h
  simp only [List.reverse_append, List.reverse_cons, List.reverse_nil,
    List.nil_append, List.singleton_append, List.cons.injEq] at hrev
  exact ⟨by simpa using congrArg List.reverse hrev.2, hrev.1⟩

lemma decChars_inj : ∀ a b : Nat, decChars a = decChars b → a = b := by
  intro a
  induction a using Nat.strong_induction_on with
  | _ a ih =>
    intro b h
    by_cases ha : a < 10 <;> by_cases hb : b < 10
    · rw [decChars_lt a ha, decChars_lt b hb, List.cons.injEq] at h
      exact digitChar_inj ha hb h.1
    · rw [decChars_lt a ha, decChars_ge b hb] at h
      have := congrArg List.length h
      have hpos : 1 ≤ (decChars (b / 10)).length := by
        by_cases hq : b / 10 < 10
        · rw [decChars_lt _ hq]; simp
        · rw [decChars_ge _ hq]; simp
      simp only [List.length_cons, List.length_nil, List.length_append] at this
      omega
    · rw [decChars_ge a ha, decChars_lt b hb] at h
      have := congrArg List.length h
      have hpos : 1 ≤ (decChars (a / 10)).length := by
        by_cases hq : a / 10 < 10
        · rw [decChars_lt _ hq]; simp
        · rw [decChars_ge _ hq]; simp
      simp only [List.length_cons, List.length_nil, List.length_append] at this
      omega
    · rw [decChars_ge a ha, decChars_ge b hb] at h
      obtain ⟨hq, hd⟩ := append_singleton_inj h
      have hmod : a % 10 = b % 10 :=
        digitChar_inj (Nat.mod_lt a (by omega)) (Nat.mod_lt b (by omega)) hd
      have hdiv : a / 10 = b / 10 :=
        ih (a / 10) (Nat.div_lt_self (by omega) (by omega)) (b / 10) hq
      omega

/-! ## Supporting lemmas: the phone regex -/

lemma takeWhile_append_all {p : Char → Bool} :
    ∀ {t u : List Char}, (∀ c ∈ t, p c = true) →
      (t ++ u).takeWhile p = t ++ u.takeWhile p := by
  intro t
  induction t with
  | nil => intro u _; rfl
  | cons a t ih =>
    intro u h
    have ha : p a = true := h a (List.mem_cons_self a t)
    simp only [List.cons_append, List.takeWhile_cons, ha, if_true]
    rw [ih fun c hc => h c (List.mem_cons_of_mem a hc)]

lemma dropWhile_append_all {p : Char → Bool} :
    ∀ {t u : List Char}, (∀ c ∈ t, p c = true) →
      (t ++ u).dropWhile p = u.dropWhile p := by
  intro t
  induction t with
  | nil => intro u _; rfl
  | cons a t ih =>
    intro u h
    have ha : p a = true := h a (List.mem_cons_self a t)
    simp only [List.cons_append, List.dropWhile_cons, ha, if_true]
    exact ih fun c hc => h c (List.mem_cons_of_mem a hc)

lemma dropWhile_head_false {p : Char → Bool} :
    ∀ {l : List Char} {x : Char} {xs : List Char},
      l.dropWhile p = x :: xs → p x = false := by
  intro l
  induction l with
  | nil => intro x xs h; simp [List.dropWhile] at h
  | cons a l ih =>
    intro x xs h
    by_cases ha : p a
    · rw [List.dropWhile_cons, if_pos ha] at h
      exact ih h
    · rw [List.dropWhile_cons, if_neg ha] at h
      cases h
      exact Bool.not_eq_true _ ▸ (by simpa using ha)

lemma dropWhile_append_of_ne_nil {p : Char → Bool} :
    ∀ {l u : List Char} {x : Char} {xs : List Char},
      l.dropWhile p = x :: xs → (l ++ u).dropWhile p = x :: (xs ++ u) := by
  intro l
  induction l with
  | nil => intro u x xs h; simp [List.dropWhile] at h
  | cons a l ih =>
    intro u x xs h
    by_cases ha : p a
    · rw [List.dropWhile_cons, if_pos ha] at h
      rw [List.cons_append, List.dropWhile_cons, if_pos ha]
      exact ih h
    · rw [List.dropWhile_cons, if_neg ha] at h
      cases h
      rw [List.cons_append, List.dropWhile_cons, if_neg ha]

lemma isPyDigit_nl : isPyDigit '\n' = false := by decide

lemma tailMatch_eq (rest : List Char) (hnl : rest.getLast? ≠ some '\n') :
    (decide (9 ≤ (rest.takeWhile isPyDigit).length)
        && decide ((rest.takeWhile isPyDigit).length ≤ 14)
        && pyDollarEnd (rest.dropWhile isPyDigit))
      = (rest.all isPyDigit && decide (9 ≤ rest.length)
        && decide (rest.length ≤ 14)) := by
  cases hd : rest.dropWhile isPyDigit with
  | nil =>
    have hall : ∀ x ∈ rest, isPyDigit x = true :=
      List.dropWhile_eq_nil_iff.mp hd
    have htake : rest.takeWhile isPyDigit = rest :=
      List.takeWhile_eq_self_iff.mpr hall
    rw [htake]
    have hall2 : rest.all isPyDigit = true := List.all_eq_true.mpr hall
    simp [pyDollarEnd, hall2]
  | cons x xs =>
    have hx : isPyDigit x = false := dropWhile_head_false hd
    have hxmem : x ∈ rest := by
      have hsplit := List.takeWhile_append_dropWhile isPyDigit rest
      rw [hd] at hsplit
      rw [← hsplit]
      exact List.mem_append.mpr (Or.inr (List.mem_cons_self x xs))
    have hall : rest.all isPyDigit = false := by
      rw [Bool.eq_false_iff]
      intro h
      have := (List.all_eq_true.mp h) x hxmem
      rw [hx] at this
      exact Bool.false_ne_true this
    have hdol : pyDollarEnd (x :: xs) = false := by
      rcases Decidable.em (x :: xs = ['\n']) with hx1 | hx1
      · exfalso
        apply hnl
        have hsplit := List.takeWhile_append_dropWhile isPyDigit rest
        rw [hd, hx1] at hsplit
        rw [← hsplit, List.getLast?_concat]
      · simp [pyDollarEnd, hx1]
    rw [hdol, hall]
    simp

lemma tailMatch_nl_eq (r : List Char) :
    (decide (9 ≤ ((r ++ ['\n']).takeWhile isPyDigit).length)
        && decide (((r ++ ['\n']).takeWhile isPyDigit).length ≤ 14)
        && pyDollarEnd ((r ++ ['\n']).dropWhile isPyDigit))
      = (r.all isPyDigit && decide (9 ≤ r.length)
        && decide (r.length ≤ 14)) := by
  cases hall : r.all isPyDigit with
  | true =>
    have hmem : ∀ c ∈ r, isPyDigit c = true := List.all_eq_true.mp hall
    have htake : (r ++ ['\n']).takeWhile isPyDigit = r := by
      rw [takeWhile_append_all hmem]
      simp [List.takeWhile_cons, isPyDigit_nl]
    have hdrop : (r ++ ['\n']).dropWhile isPyDigit = ['\n'] := by
      rw [dropWhile_append_all hmem]
      simp [List.dropWhile_cons, isPyDigit_nl]
    rw [htake, hdrop]
    simp [pyDollarEnd]
  | false =>
    have hne : r.dropWhile isPyDigit ≠ [] := by
      intro h
      have := List.all_eq_true.mpr (List.dropWhile_eq_nil_iff.mp h)
      rw [hall] at this
      exact Bool.false_ne_true this
    obtain ⟨x, xs, hd⟩ : ∃ x xs, r.dropWhile isPyDigit = x :: xs := by
      cases hcase : r.dropWhile isPyDigit with
      | nil => exact absurd hcase hne
      | cons x xs => exact ⟨x, xs, rfl⟩
    have hdrop := dropWhile_append_of_ne_nil (u := ['\n']) hd
    have hdol : pyDollarEnd (x :: (xs ++ ['\n'])) = false := by
      simp [pyDollarEnd]
    rw [hdrop, hdol]
    simp

lemma pyPhoneMatch_eq_spec (s : String) :
    pyPhoneMatch s = specPhonePatNd (stripTrailNl s) := by
  cases s with
  | mk l =>
    by_cases hnl : l.getLast? = some '\n'
    · have hne : l ≠ [] := by
        intro h
        rw [h] at hnl
        simp at hnl
      have hlast : l.getLast hne = '\n' := by
        have := List.getLast?_eq_getLast l hne
        rw [hnl] at this
        exact (Option.some.injEq _ _).mp this.symm
      obtain ⟨r, rfl⟩ : ∃ r, l = r ++ ['\n'] :=
        ⟨l.dropLast, by rw [← hlast, List.dropLast_append_getLast hne]⟩
      have hstrip : stripTrailNl ⟨r ++ ['\n']⟩ = ⟨r⟩ := by
        simp [stripTrailNl]
      rw [hstrip]
      match r with
      | [] => rfl
      | [a] =>
          show pyPhoneMatch ⟨[a, '\n']⟩ = specPhonePatNd ⟨[a]⟩
          simp [pyPhoneMatch, specPhonePatNd]
      | a :: b :: t =>
          show pyPhoneMatch ⟨a :: b :: (t ++ ['\n'])⟩ = specPhonePatNd ⟨a :: b :: t⟩
          simp only [pyPhoneMatch, specPhonePatNd]
          rw [tailMatch_nl_eq t]
    · have hstrip : stripTrailNl ⟨l⟩ = ⟨l⟩ := by
        simp [stripTrailNl, hnl]
      rw [hstrip]
      match l, hnl with
      | [], _ => rfl
      | [a], _ => rfl
      | a :: b :: t, hnl =>
          have ht : t.getLast? ≠ some '\n' := by
            match t with
            | [] => simp
            | x :: xs =>
                rw [List.getLast?_cons_cons, List.getLast?_cons_cons] at hnl
                exact hnl
          simp only [pyPhoneMatch, specPhonePatNd]
          rw [tailMatch_eq t ht]

/-- Behaviour of `send_voice_otp` once the configuration guard passes:
exactly one request `req` is issued, and the outcome follows `response.ok`
and `response.json()` as lines 58–68 prescribe. -/

lemma send_good (env : String → Option String)
    (tr : HttpRequest → HttpResponse) (seed : Nat) (phone : String)
    (code : Option String) (g a : String) (req : HttpRequest)
    (hg : env "GATEWAY_URL" = some g) (hg2 : g ≠ "")
    (ha : env "API_SECRET" = some a) (ha2 : a ≠ "")
    (hreq : req = ⟨g ++ "/send-otp", phone, effectiveCode seed code, a,
      "application/json", 30⟩) :
    (send_voice_otp env tr seed phone code).1 = [req] ∧
    (∀ body, (tr req).ok = true → (tr req).jsonResult = some (.jobj body) →
      (send_voice_otp env tr seed phone code).2 =
        .ok (pyDictMerge (effectiveCode seed code) body)) ∧
    (∀ err, (tr req).ok = false → (tr req).jsonResult = some (.jobj err) →
      (send_voice_otp env tr seed phone code).2 = .error (.apiError
        ("API Error: " ++ pyStrOpt (jget err "message") ++ " ("
          ++ pyStrOpt (jget err "error") ++ ")"))) ∧
    ((tr req).jsonResult = none →
      (send_voice_otp env tr seed phone code).2 = .error .jsonDecodeError) ∧
    (∀ m, (send_voice_otp env tr seed phone code).2 = .error (.apiError m) →
      (tr req).ok = false ∧ ∃ o, (tr req).jsonResult = some (.jobj o)) := by
  have hgi : g.isEmpty = false :=
    Bool.eq_false_iff.mpr fun h => hg2 ((String.isEmpty_iff g).mp h)
  have hai : a.isEmpty = false :=
    Bool.eq_false_iff.mpr fun h => ha2 ((String.isEmpty_iff a).mp h)
  simp only [send_voice_otp, hg, ha, pyTruthyStr, hgi, hai, Bool.not_false,
    Bool.not_true, Bool.false_eq_true, if_false, if_true, Option.getD_some]
  rw [← hreq]
  cases hok : (tr req).ok with
  | true =>
    cases hjs : (tr req).jsonResult with
    | none => simp [hok, hjs]
    | some d =>
      cases d with
      | jobj o => simp [hok, hjs]
      | jarr l => simp [hok, hjs]
      | jprim v => simp [hok, hjs]
  | false =>
    cases hjs : (tr req).jsonResult with
    | none => simp [hok, hjs]
    | some d =>
      cases d with
      | jobj o => simp [hok, hjs]
      | jarr l => simp [hok, hjs]
      | jprim v => simp [hok, hjs]

/-! ## Supporting lemmas: the dict merge -/

lemma jget_eq_none_iff (o : List (String × JVal)) (k : String) :
    jget o k = none ↔ k ∉ o.map Prod.fst := by
  induction o with
  | nil => simp [jget]
  | cons kv rest ih =>
    obtain ⟨k2, v⟩ := kv
    by_cases hk : k2 = k
    · subst hk
      simp [jget]
    · simp [jget, hk, ih, Ne.symm hk]

lemma setKey_append_of_not_mem (acc : List (String × JVal)) (k : String)
    (v : JVal) (h : k ∉ acc.map Prod.fst) :
    setKey acc k v = acc ++ [(k, v)] := by
  induction acc with
  | nil => rfl
  | cons kv rest ih =>
    obtain ⟨k2, v2⟩ := kv
    simp only [List.map_cons, List.mem_cons] at h
    push_neg at h
    simp only [setKey, Ne.symm h.1, if_false, List.cons_append]
    rw [ih h.2]

lemma foldl_setKey_append (body : List (String × JVal)) :
    ∀ acc : List (String × JVal),
      (∀ k ∈ body.map Prod.fst, k ∉ acc.map Prod.fst) →
      (body.map Prod.fst).Nodup →
      body.foldl (fun acc kv => setKey acc kv.1 kv.2) acc = acc ++ body := by
  induction body with
  | nil => intro acc _ _; simp
  | cons kv rest ih =>
    intro acc hdisj hnodup
    obtain ⟨k, v⟩ := kv
    simp only [List.foldl_cons]
    have hk : k ∉ acc.map Prod.fst :=
      hdisj k (by simp)
    rw [setKey_append_of_not_mem acc k v hk]
    simp only [List.map_cons, List.nodup_cons] at hnodup
    have hdisj2 : ∀ k2 ∈ rest.map Prod.fst, k2 ∉ (acc ++ [(k, v)]).map Prod.fst := by
      intro k2 hk2
      simp only [List.map_append, List.mem_append, List.map_cons, List.map_nil,
        List.mem_singleton]
      push_neg
      constructor
      · exact hdisj k2 (by simp [hk2])
      · intro hkk
        exact hnodup.1 (hkk ▸ hk2)
    rw [ih (acc ++ [(k, v)]) hdisj2 hnodup.2, List.append_assoc]
    rfl

lemma pyDictMerge_no_code (c : String) (body : List (String × JVal))
    (h1 : jget body "code" = none) (h2 : (body.map Prod.fst).Nodup) :
    pyDictMerge c body = ("code", .jstr c) :: body := by
  have hnc : "code" ∉ body.map Prod.fst := (jget_eq_none_iff body "code").mp h1
  have hdisj : ∀ k ∈ body.map Prod.fst, k ∉ ([("code", JVal.jstr c)].map Prod.fst) := by
    intro k hk
    simp only [List.map_cons, List.map_nil, List.mem_singleton]
    intro hkk
    exact hnc (hkk ▸ hk)
  rw [pyDictMerge, foldl_setKey_append body [("code", .jstr c)] hdisj h2]
  rfl

/-! ## Supporting lemmas: the configuration guard -/

lemma pyTruthyStr_some_ne {g : String} (h : g ≠ "") :
    pyTruthyStr (some g) = true := by
  have hgi : g.isEmpty = false :=
    Bool.eq_false_iff.mpr fun hh => h ((String.isEmpty_iff g).mp hh)
  simp [pyTruthyStr, hgi]

lemma send_gateway_guard (env : String → Option String)
    (tr : HttpRequest → HttpResponse) (seed : Nat) (phone : String)
    (code : Option String) (h : pyTruthyStr (env "GATEWAY_URL") = false) :
    send_voice_otp env tr seed phone code =
      ([], .error (.configError "GATEWAY_URL environment variable is required")) := by
  simp [send_voice_otp, h]

lemma send_secret_guard (env : String → Option String)
    (tr : HttpRequest → HttpResponse) (seed : Nat) (phone : String)
    (code : Option String) (h1 : pyTruthyStr (env "GATEWAY_URL") = true)
    (h2 : pyTruthyStr (env "API_SECRET") = false) :
    send_voice_otp env tr seed phone code =
      ([], .error (.configError "API_SECRET environment variable is required")) := by
  simp [send_voice_otp, h1, h2]

/-! ## Claim theorems -/

/-- Claim C3: when `GATEWAY_URL` (or, with the gateway present, `API_SECRET`)
cannot be resolved from the environment, `send_voice_otp` fails immediately
with a `ValueError` whose message names the missing variable, and issues no
HTTP request (the request list is empty).  When both are missing the guard
reports `GATEWAY_URL`, which is indeed a missing variable. -/
theorem config_missing_thm (env : String → Option String)
    (tr : HttpRequest → HttpResponse) (seed : Nat) (phone : String)
    (code : Option String) :
    (env "GATEWAY_URL" = none →
      send_voice_otp env tr seed phone code =
        ([], .error (.configError "GATEWAY_URL environment variable is required"))) ∧
    (pyTruthyStr (env "GATEWAY_URL") = true → env "API_SECRET" = none →
      send_voice_otp env tr seed phone code =
        ([], .error (.configError "API_SECRET environment variable is required"))) := by
  constructor
  · intro h
    exact send_gateway_guard env tr seed phone code (by rw [h]; rfl)
  · intro h1 h2
    exact send_secret_guard env tr seed phone code h1 (by rw [h2]; rfl)

/-- Witness for C3: with an environment where both variables are unset, the
send fails with the `GATEWAY_URL` configuration error and performs no
call. -/
theorem config_missing_witness :
    send_voice_otp emptyEnv (okTransport (.jobj [])) 0 "+14155551234" none =
      ([], .error (.configError "GATEWAY_URL environment variable is required")) :=
  (config_missing_thm emptyEnv (okTransport (.jobj [])) 0 "+14155551234" none).1 rfl

/-- Claim C9: an environment variable set to the empty string is treated
exactly like an unset one — the guard tests Python truthiness, not
presence — so the corresponding configuration error is raised and no
request is issued. -/
theorem empty_env_var_thm (env : String → Option String)
    (tr : HttpRequest → HttpResponse) (seed : Nat) (phone : String)
    (code : Option String) :
    (env "GATEWAY_URL" = some "" →
      send_voice_otp env tr seed phone code =
        ([], .error (.configError "GATEWAY_URL environment variable is required"))) ∧
    (pyTruthyStr (env "GATEWAY_URL") = true → env "API_SECRET" = some "" →
      send_voice_otp env tr seed phone code =
        ([], .error (.configError "API_SECRET environment variable is required"))) := by
  constructor
  · intro h
    exact send_gateway_guard env tr seed phone code (by rw [h]; rfl)
  · intro h1 h2
    exact send_secret_guard env tr seed phone code h1 (by rw [h2]; rfl)

/-- An environment in which every variable is set to the empty string. -/
def blankEnv : String → Option String := fun _ => some ""

/-- An environment with a usable gateway URL but an empty API secret. -/
def halfEnv : String → Option String := fun k =>
  if k = "API_SECRET" then some "" else some "https://gateway.example"

/-- Witness for C9: both empty-string configurations produce the
configuration errors without any request. -/
theorem empty_env_var_witness :
    send_voice_otp blankEnv (okTransport (.jobj [])) 0 "+14155551234" none =
      ([], .error (.configError "GATEWAY_URL environment variable is required")) ∧
    send_voice_otp halfEnv (okTransport (.jobj [])) 0 "+14155551234" none =
      ([], .error (.configError "API_SECRET environment variable is required")) :=
  ⟨(empty_env_var_thm blankEnv (okTransport (.jobj [])) 0 "+14155551234" none).1 rfl,
   (empty_env_var_thm halfEnv (okTransport (.jobj [])) 0 "+14155551234" none).2
     (by decide) (by decide)⟩

/-- Claim C7: once the configuration precondition holds, `send_voice_otp`
issues exactly one POST — a one-element request list, whatever the
transport answers, so no retry can occur — to the gateway URL with
`/send-otp` appended, carrying the JSON body fields `phone`, `code`
(the effective code) and `secret`, the `Content-Type: application/json`
header, and the fixed 30-second timeout. -/
theorem single_post_thm (env : String → Option String)
    (tr : HttpRequest → HttpResponse) (seed : Nat) (phone : String)
    (code : Option String) (g a : String)
    (hg : env "GATEWAY_URL" = some g) (hg2 : g ≠ "")
    (ha : env "API_SECRET" = some a) (ha2 : a ≠ "") :
    (send_voice_otp env tr seed phone code).1 =
      [⟨g ++ "/send-otp", phone, effectiveCode seed code, a,
        "application/json", 30⟩] :=
  (send_good env tr seed phone code g a _ hg hg2 ha ha2 rfl).1

/-- Witness for C7: a concrete configured send issues exactly the one
expected request. -/
theorem single_post_witness :
    (send_voice_otp goodEnv (okTransport (.jobj [("status", .jstr "ok")])) 0
        "+14155551234" (some "482913")).1 =
      [⟨"https://gateway.example" ++ "/send-otp", "+14155551234",
        effectiveCode 0 (some "482913"), "s3cret", "application/json", 30⟩] :=
  single_post_thm goodEnv (okTransport (.jobj [("status", .jstr "ok")])) 0
    "+14155551234" (some "482913") "https://gateway.example" "s3cret"
    rfl (by decide) rfl (by decide)

/-- Claim C5: on a non-success HTTP status whose body parses as a JSON
object, `send_voice_otp` raises an `HTTPError` whose text is exactly
`"API Error: "`, the `str` of the body's `message` field, `" ("`, the
`str` of the body's `error` field, and `")"` — a missing field printing as
Python `None`. -/
theorem api_error_format_thm (env : String → Option String)
    (tr : HttpRequest → HttpResponse) (seed : Nat) (phone : String)
    (code : Option String) (g a : String) (req : HttpRequest)
    (err : List (String × JVal))
    (hg : env "GATEWAY_URL" = some g) (hg2 : g ≠ "")
    (ha : env "API_SECRET" = some a) (ha2 : a ≠ "")
    (hreq : req = ⟨g ++ "/send-otp", phone, effectiveCode seed code, a,
      "application/json", 30⟩)
    (hok : (tr req).ok = false)
    (hjs : (tr req).jsonResult = some (.jobj err)) :
    (send_voice_otp env tr seed phone code).2 =
      .error (.apiError ("API Error: " ++ pyStrOpt (jget err "message")
        ++ " (" ++ pyStrOpt (jget err "error") ++ ")")) :=
  (send_good env tr seed phone code g a req hg hg2 ha ha2 hreq).2.2.1 err hok hjs

/-- Witness for C5: the spec's simulated failure body produces the error
text `"API Error: invalid secret (AUTH_FAILED)"`, which contains both
`"invalid secret"` and `"AUTH_FAILED"`. -/
theorem api_error_format_witness :
    (send_voice_otp goodEnv (failTransport (some (.jobj authFailedBody))) 0
        "+14155551234" none).2 =
      .error (.apiError "API Error: invalid secret (AUTH_FAILED)") :=
  (api_error_format_thm goodEnv (failTransport (some (.jobj authFailedBody))) 0
      "+14155551234" none "https://gateway.example" "s3cret" _ authFailedBody
      rfl (by decide) rfl (by decide) rfl rfl rfl).trans rfl

/-- Claim C10: on a non-success status, the body is parsed before the API
error is built — a body that is not valid JSON makes `response.json()`
raise, so the failure is the JSON-parse failure, not the formatted
`"API Error: ..."`; conversely an `apiError` can only arise from a body
that parsed as a JSON object. -/
theorem nonjson_error_body_thm (env : String → Option String)
    (tr : HttpRequest → HttpResponse) (seed : Nat) (phone : String)
    (code : Option String) (g a : String) (req : HttpRequest)
    (hg : env "GATEWAY_URL" = some g) (hg2 : g ≠ "")
    (ha : env "API_SECRET" = some a) (ha2 : a ≠ "")
    (hreq : req = ⟨g ++ "/send-otp", phone, effectiveCode seed code, a,
      "application/json", 30⟩) :
    ((tr req).ok = false → (tr req).jsonResult = none →
      (send_voice_otp env tr seed phone code).2 = .error .jsonDecodeError) ∧
    (∀ m, (send_voice_otp env tr seed phone code).2 = .error (.apiError m) →
      (tr req).ok = false ∧ ∃ o, (tr req).jsonResult = some (.jobj o)) := by
  have h := send_good env tr seed phone code g a req hg hg2 ha ha2 hreq
  exact ⟨fun _ hjs => h.2.2.2.1 hjs, h.2.2.2.2⟩

/-- Witness for C10: a non-success response with a non-JSON body yields the
JSON-decode failure, and a non-success response with the spec's JSON body
yields an API error, whose response indeed parsed as an object. -/
theorem nonjson_error_body_witness :
    (send_voice_otp goodEnv (failTransport none) 0 "+14155551234" none).2 =
      .error .jsonDecodeError ∧
    ((failTransport (some (.jobj authFailedBody))
        ⟨"https://gateway.example" ++ "/send-otp", "+14155551234",
          effectiveCode 0 none, "s3cret", "application/json", 30⟩).ok = false ∧
      ∃ o, (failTransport (some (.jobj authFailedBody))
        ⟨"https://gateway.example" ++ "/send-otp", "+14155551234",
          effectiveCode 0 none, "s3cret", "application/json", 30⟩).jsonResult =
          some (.jobj o)) :=
  ⟨(nonjson_error_body_thm goodEnv (failTransport none) 0 "+14155551234" none
      "https://gateway.example" "s3cret" _ rfl (by decide) rfl (by decide) rfl).1
      rfl rfl,
   (nonjson_error_body_thm goodEnv (failTransport (some (.jobj authFailedBody)))
      0 "+14155551234" none "https://gateway.example" "s3cret" _ rfl (by decide)
      rfl (by decide) rfl).2 "API Error: invalid secret (AUTH_FAILED)" rfl⟩

/-- Claim C2: for every request `send_voice_otp` actually issues, the code
sent is the caller-supplied code exactly as given whenever that code is
present and non-empty — whatever its format — and the freshly generated
6-digit code when the code is absent or the empty string (Python `or`
treats `""` as not provided). -/
theorem effective_code_thm (env : String → Option String)
    (tr : HttpRequest → HttpResponse) (seed : Nat) (phone : String)
    (code : Option String) (req : HttpRequest)
    (hreq : req ∈ (send_voice_otp env tr seed phone code).1) :
    (∀ c, code = some c → c ≠ "" → req.code = c) ∧
    ((code = none ∨ code = some "") → req.code = generate_otp seed) := by
  cases hG : env "GATEWAY_URL" with
  | none =>
    rw [send_gateway_guard env tr seed phone code (by rw [hG]; rfl)] at hreq
    simp at hreq
  | some g =>
    by_cases hge : g = ""
    · subst hge
      rw [send_gateway_guard env tr seed phone code (by rw [hG]; rfl)] at hreq
      simp at hreq
    · cases hA : env "API_SECRET" with
      | none =>
        rw [send_secret_guard env tr seed phone code
          (by rw [hG]; exact pyTruthyStr_some_ne hge) (by rw [hA]; rfl)] at hreq
        simp at hreq
      | some a =>
        by_cases hae : a = ""
        · subst hae
          rw [send_secret_guard env tr seed phone code
            (by rw [hG]; exact pyTruthyStr_some_ne hge) (by rw [hA]; rfl)] at hreq
          simp at hreq
        · rw [(send_good env tr seed phone code g a _ hG hge hA hae rfl).1] at hreq
          rw [List.mem_singleton] at hreq
          subst hreq
          constructor
          · intro c hc hcne
            subst hc
            have hci : c.isEmpty = false :=
              Bool.eq_false_iff.mpr fun hh => hcne ((String.isEmpty_iff c).mp hh)
            simp [effectiveCode, hci]
          · rintro (hc | hc) <;> subst hc <;> rfl

/-- Witness for C2: with a caller-supplied `"0000"` the request carries
`"0000"` unchanged (a 4-digit code, showing no reformatting), and with no
code the request carries the generated `generate_otp 0`. -/
theorem effective_code_witness :
    (⟨"https://gateway.example" ++ "/send-otp", "+14155551234",
        effectiveCode 0 (some "0000"), "s3cret", "application/json",
        30⟩ : HttpRequest).code = "0000" ∧
    (⟨"https://gateway.example" ++ "/send-otp", "+14155551234",
        effectiveCode 0 (some ""), "s3cret", "application/json",
        30⟩ : HttpRequest).code = generate_otp 0 :=
  ⟨(effective_code_thm goodEnv (okTransport (.jobj [])) 0 "+14155551234"
      (some "0000") _ (by decide)).1 "0000" rfl (by decide),
   (effective_code_thm goodEnv (okTransport (.jobj [])) 0 "+14155551234"
      (some "") _ (by decide)).2 (Or.inr rfl)⟩

/-- Counterexample to claim C1 as stated: the dict display on line 68 is
`\x7b"code": otp_code, **response.json()\x7d`, so a `code` field in the response
body overrides the effective code, not the other way round.  Here the
effective code sent is `"482913"` (visible in the issued request), yet the
returned result's `code` field is the body's `"999999"`. -/
theorem success_result_code_hijack_cex :
    (send_voice_otp goodEnv (okTransport (.jobj [("code", .jstr "999999")])) 0
        "+14155551234" (some "482913")).1 =
      [⟨"https://gateway.example/send-otp", "+14155551234", "482913", "s3cret",
        "application/json", 30⟩] ∧
    (send_voice_otp goodEnv (okTransport (.jobj [("code", .jstr "999999")])) 0
        "+14155551234" (some "482913")).2 =
      .ok [("code", .jstr "999999")] :=
  ⟨rfl, rfl⟩

/-- Claim C1, amended: on a success response whose body parses as a JSON
object, the result is the dict starting from `code ↦ effective code` with
every response field merged over it — so response fields win on key
collision.  Whenever the body has no `code` key of its own (its keys being
distinct, as for any parsed JSON object), the result is exactly the parsed
body together with the binding `code ↦ effective code`, as the claim
states. -/
theorem success_merged_result_thm (env : String → Option String)
    (tr : HttpRequest → HttpResponse) (seed : Nat) (phone : String)
    (code : Option String) (g a : String) (req : HttpRequest)
    (body : List (String × JVal))
    (hg : env "GATEWAY_URL" = some g) (hg2 : g ≠ "")
    (ha : env "API_SECRET" = some a) (ha2 : a ≠ "")
    (hreq : req = ⟨g ++ "/send-otp", phone, effectiveCode seed code, a,
      "application/json", 30⟩)
    (hok : (tr req).ok = true)
    (hjs : (tr req).jsonResult = some (.jobj body)) :
    (send_voice_otp env tr seed phone code).2 =
      .ok (pyDictMerge (effectiveCode seed code) body) ∧
    (jget body "code" = none → (body.map Prod.fst).Nodup →
      (send_voice_otp env tr seed phone code).2 =
        .ok (("code", .jstr (effectiveCode seed code)) :: body)) := by
  have h := (send_good env tr seed phone code g a req hg hg2 ha ha2 hreq).2.1
    body hok hjs
  refine ⟨h, fun h1 h2 => ?_⟩
  rw [h, pyDictMerge_no_code _ body h1 h2]

/-- Witness for C1 (amended): the spec's simulated success body
`\x7b"call_id": "abc123", "status": "queued"\x7d` with effective code `"482913"`
returns exactly the body plus `code ↦ "482913"` (dict equality is
key-value equality; the `code` binding sits first in insertion order). -/
theorem success_merged_result_witness :
    (send_voice_otp goodEnv (okTransport (.jobj queuedBody)) 0 "+14155551234"
        (some "482913")).2 =
      .ok (("code", .jstr (effectiveCode 0 (some "482913"))) :: queuedBody) :=
  (success_merged_result_thm goodEnv (okTransport (.jobj queuedBody)) 0
      "+14155551234" (some "482913") "https://gateway.example" "s3cret" _
      queuedBody rfl (by decide) rfl (by decide) rfl rfl rfl).2 rfl (by decide)

/-- Counterexample to claim C4 as stated: the script's `re.match` accepts
two kinds of phones the claimed pattern (a leading `+`, a digit 1–9, then
9–14 digits and nothing else) rejects, performing a network call and
exiting 0 instead of rejecting.  First, Python's `$` anchor also matches
just before a newline that ends the string, so `"+14155551234\n"` is
accepted.  Second, `\x5cd` in a `str` pattern matches any Unicode decimal
digit, so `"+1"` followed by nine Arabic-Indic digits (U+0660–U+0668) is
accepted as well. -/
theorem phone_regex_semantics_cex :
    specPhonePat "+14155551234\n" = false ∧
    (main_run goodEnv (okTransport (.jobj [("status", .jstr "ok")])) 3
        ["+14155551234\n"]).exitCode = 0 ∧
    (main_run goodEnv (okTransport (.jobj [("status", .jstr "ok")])) 3
        ["+14155551234\n"]).requests ≠ [] ∧
    specPhonePat "+1٠١٢٣٤٥٦٧٨" = false ∧
    (main_run goodEnv (okTransport (.jobj [("status", .jstr "ok")])) 3
        ["+1٠١٢٣٤٥٦٧٨"]).exitCode = 0 ∧
    (main_run goodEnv (okTransport (.jobj [("status", .jstr "ok")])) 3
        ["+1٠١٢٣٤٥٦٧٨"]).requests ≠ [] := by
  refine ⟨by decide, rfl, by decide, by decide, rfl, by decide⟩

/-- Claim C4, amended: the entry point proceeds to attempt a send exactly
when the phone matches `+`, an ASCII digit 1–9, then 9 to 14 Unicode
decimal digits (category Nd, what Python's `\x5cd` matches), after removal of
at most one trailing newline (Python `$` semantics); every other input is
rejected with the format error message, exit status 1, and no network
call. -/
theorem phone_validation_thm (env : String → Option String)
    (tr : HttpRequest → HttpResponse) (seed : Nat) (phone : String)
    (rest : List String) :
    pyPhoneMatch phone = specPhonePatNd (stripTrailNl phone) ∧
    (pyPhoneMatch phone = false →
      main_run env tr seed (phone :: rest) =
        { output := [.formatError], exitCode := 1, requests := [] }) ∧
    (pyPhoneMatch phone = true →
      (main_run env tr seed (phone :: rest)).output.head? =
        some (.sending phone)) := by
  refine ⟨pyPhoneMatch_eq_spec phone, fun h => ?_, fun h => ?_⟩
  · simp [main_run, h]
  · simp only [main_run, h, Bool.not_true, Bool.false_eq_true, if_false]
    cases hs : send_voice_otp env tr seed phone rest.head? with
    | mk reqs res =>
      cases res with
      | ok r => simp
      | error e => simp

/-- Witness for C4 (amended): `"+14155551234"` is accepted and reaches the
send (the sending line is printed first), while `"0800"` is rejected with
the format error, exit status 1 and no request. -/
theorem phone_validation_witness :
    (main_run goodEnv (okTransport (.jobj [("status", .jstr "ok")])) 3
        ["+14155551234"]).output.head? = some (.sending "+14155551234") ∧
    main_run goodEnv (okTransport (.jobj [("status", .jstr "ok")])) 3 ["0800"] =
      { output := [.formatError], exitCode := 1, requests := [] } :=
  ⟨(phone_validation_thm goodEnv (okTransport (.jobj [("status", .jstr "ok")]))
      3 "+14155551234" []).2.2 (by decide),
   (phone_validation_thm goodEnv (okTransport (.jobj [("status", .jstr "ok")]))
      3 "0800" []).2.1 (by decide)⟩

/-- Claim C6: every code `generate_otp` produces is the decimal
representation of an integer in `[100000, 999999]`: a string of exactly 6
ASCII digits.  Uniformity: `random.randint`'s contract makes the drawn
integer uniform over the 900000-element range, and the draw-to-code map is
injective on that range and reaches the representation of every integer in
it, so the code is uniform over the 6-digit codes. -/
theorem generate_otp_thm (seed : Nat) :
    ((generate_otp seed).length = 6 ∧
      (∀ c ∈ (generate_otp seed).data, c.isDigit = true) ∧
      (∃ n, 100000 ≤ n ∧ n ≤ 999999 ∧ generate_otp seed = Nat.repr n)) ∧
    (∀ s2, seed < 900000 → s2 < 900000 →
      generate_otp seed = generate_otp s2 → seed = s2) ∧
    (∀ n, 100000 ≤ n → n ≤ 999999 →
      ∃ s, s < 900000 ∧ generate_otp s = Nat.repr n) := by
  have hbound : ∀ s : Nat, 100000 ≤ randint 100000 999999 s ∧
      randint 100000 999999 s ≤ 999999 := by
    intro s
    have := Nat.mod_lt s (y := 900000) (by omega)
    constructor
    · simp [randint]
    · simp [randint]; omega
  refine ⟨⟨?_, ?_, ?_⟩, ?_, ?_⟩
  · rw [generate_otp, repr_length_eq]
    exact decChars_length_six _ (hbound seed).1 (hbound seed).2
  · intro c hc
    rw [generate_otp, repr_data_eq_decChars] at hc
    exact decChars_all_isDigit _ c hc
  · exact ⟨randint 100000 999999 seed, (hbound seed).1, (hbound seed).2, rfl⟩
  · intro s2 h1 h2 heq
    have hdata := congrArg String.data heq
    rw [generate_otp, generate_otp, repr_data_eq_decChars,
      repr_data_eq_decChars] at hdata
    have := decChars_inj _ _ hdata
    simp only [randint] at this
    omega
  · intro n h1 h2
    refine ⟨n - 100000, by omega, ?_⟩
    have harg : randint 100000 999999 (n - 100000) = n := by
      simp only [randint]
      omega
    rw [generate_otp, harg]

/-- Witness for C6: a concrete generated code has the stated shape, and the
code `"482913"` is reachable. -/
theorem generate_otp_witness :
    (generate_otp 382913).length = 6 ∧
    (∃ s, s < 900000 ∧ generate_otp s = Nat.repr 482913) :=
  ⟨(generate_otp_thm 382913).1.1,
   (generate_otp_thm 0).2.2 482913 (by decide) (by decide)⟩

/-- Claim C8: the entry point exits 0 exactly when the send succeeds, in
which case it prints the success line with the result; it exits 1 printing
the usage lines on a missing phone argument, the format error on a
malformed phone, and the failure line carrying the caught exception when
the send operation raises. -/
theorem exit_codes_thm (env : String → Option String)
    (tr : HttpRequest → HttpResponse) (seed : Nat) (args : List String) :
    (args = [] → main_run env tr seed args =
      { output := [.usage1, .usage2], exitCode := 1, requests := [] }) ∧
    (∀ phone rest, args = phone :: rest → pyPhoneMatch phone = false →
      main_run env tr seed args =
        { output := [.formatError], exitCode := 1, requests := [] }) ∧
    (∀ phone rest reqs e, args = phone :: rest → pyPhoneMatch phone = true →
      send_voice_otp env tr seed phone rest.head? = (reqs, .error e) →
      main_run env tr seed args =
        { output := [.sending phone, .failed e], exitCode := 1,
          requests := reqs }) ∧
    (∀ phone rest reqs r, args = phone :: rest → pyPhoneMatch phone = true →
      send_voice_otp env tr seed phone rest.head? = (reqs, .ok r) →
      main_run env tr seed args =
        { output := [.sending phone, .success r], exitCode := 0,
          requests := reqs }) ∧
    ((main_run env tr seed args).exitCode = 0 ↔
      ∃ phone rest r, args = phone :: rest ∧ pyPhoneMatch phone = true ∧
        (send_voice_otp env tr seed phone rest.head?).2 = .ok r) := by
  refine ⟨?_, ?_, ?_, ?_, ?_⟩
  · rintro rfl
    rfl
  · rintro phone rest rfl h
    simp [main_run, h]
  · rintro phone rest reqs e rfl h hs
    simp [main_run, h, hs]
  · rintro phone rest reqs r rfl h hs
    simp [main_run, h, hs]
  · cases args with
    | nil => simp [main_run]
    | cons phone rest =>
      cases hm : pyPhoneMatch phone with
      | false =>
        simp [main_run, hm]
      | true =>
        simp only [main_run, hm, Bool.not_true, Bool.false_eq_true, if_false]
        cases hs : send_voice_otp env tr seed phone rest.head? with
        | mk reqs res =>
          cases res with
          | ok r =>
            simp only [MainOutcome.mk.injEq]
            constructor
            · intro _
              exact ⟨phone, rest, r, rfl, hm, by rw [hs]⟩
            · intro _
              trivial
          | error e =>
            simp only [MainOutcome.mk.injEq]
            constructor
            · intro h01
              omega
            · rintro ⟨phone2, rest2, r2, heq, hm2, hok⟩
              cases heq
              rw [hs] at hok
              simp at hok

/-- Witness for C8: a missing argument yields the usage output with exit 1,
and a valid phone against an ok transport yields exit 0. -/
theorem exit_codes_witness :
    main_run goodEnv (okTransport (.jobj [("status", .jstr "ok")])) 3 [] =
      { output := [.usage1, .usage2], exitCode := 1, requests := [] } ∧
    (main_run goodEnv (okTransport (.jobj [("status", .jstr "ok")])) 3
        ["+14155551234"]).exitCode = 0 :=
  ⟨(exit_codes_thm goodEnv (okTransport (.jobj [("status", .jstr "ok")])) 3
      []).1 rfl,
   (exit_codes_thm goodEnv (okTransport (.jobj [("status", .jstr "ok")])) 3
      ["+14155551234"]).2.2.2.2.mpr
      ⟨"+14155551234", [], [("code", .jstr (generate_otp 3)),
        ("status", .jstr "ok")], rfl, by decide, rfl⟩⟩
